import Mathlib

/-!
Shallow embedding of the version/platform resolution and binary-acquisition
core of `claude_launcher.py` (classes `OSChecker`, `VersionManager`,
`ClaudeInstaller`, `ClaudeUninstaller` and the module-level helpers), together
with theorems about the embedded operations.

Host facts that the Python code reads from the environment (the value of
`sys.platform`, the raw `platform.machine()` string, the outcome of a
subprocess invocation, the bytes of a file on disk, ...) are passed to the
Lean functions as explicit parameters; each function then follows the Python
control flow on those facts.  Bytes are modelled as `Nat` values below 256,
byte strings as `List Nat`.
-/

namespace ClaudeLauncher

/-! ### Python string primitives used by the source -/

/-- Python `str.lower()` on the ASCII data this program handles. -/
def pyLower (s : String) : String := String.mk (s.data.map Char.toLower)

/-- Character-list version of Python `str.startswith` (used to scan for a
substring). -/
def listStarts : List Char → List Char → Bool
  | [], _ => true
  | _ :: _, [] => false
  | a :: as, b :: bs => a == b && listStarts as bs

/-- Character-list version of the Python `needle in haystack` substring
test. -/
def containsSubList (needle : List Char) : List Char → Bool
  | [] => needle.isEmpty
  | c :: rest => listStarts needle (c :: rest) || containsSubList needle rest

/-- Python `needle in haystack` for strings. -/
def pyContains (needle haystack : String) : Bool :=
  containsSubList needle.data haystack.data

/-- Python truthiness of an optional string: `None` and `""` are falsy. -/
def pyTruthy : Option String → Bool
  | none => false
  | some s => !s.isEmpty

/-- Python `str.strip()` (whitespace at both ends) on the ASCII data this
program handles. -/
def pyStrip (s : String) : String :=
  String.mk (((s.data.dropWhile Char.isWhitespace).reverse.dropWhile
    Char.isWhitespace).reverse)

/-- Python `s.startswith(pre)`. -/
def pyStartsWith (s pre : String) : Bool := listStarts pre.data s.data

/-! ### OS detection (`OSChecker`) -/

/-- `OSChecker.get_os_platform`: map `sys.platform` to the OS token. -/
def get_os_platform (sysPlatform : String) : String :=
  if sysPlatform = "darwin" then "darwin"
  else if sysPlatform = "linux" then "linux"
  else if sysPlatform = "win32" then "win32"
  else "unknown"

/-- `OSChecker.get_architecture`: normalize `platform.machine().lower()`. -/
def get_architecture (machineRaw : String) : String :=
  let arch := pyLower machineRaw
  if arch = "x86_64" ∨ arch = "amd64" then "x64"
  else if arch = "arm64" ∨ arch = "aarch64" then "arm64"
  else arch

/-- `OSChecker._is_musl_linux`.  `lddOut` is `some stdout` when the
`ldd /bin/ls` probe completed, `none` when it raised any exception, in which
case the code falls back to testing for the two known musl runtime library
files (the two booleans). -/
def is_musl_linux (lddOut : Option String) (muslX86Lib muslAarchLib : Bool) : Bool :=
  match lddOut with
  | some out => pyContains "musl" (pyLower out)
  | none => muslX86Lib || muslAarchLib

/-- The `OS_ARCH_MAP` dictionary lookup: the six supported (os, arch) keys. -/
def os_arch_token : String × String → Option String
  | ("darwin", "x64") => some "darwin-x64"
  | ("darwin", "arm64") => some "darwin-arm64"
  | ("linux", "x64") => some "linux-x64"
  | ("linux", "arm64") => some "linux-arm64"
  | ("win32", "x64") => some "win32-x64"
  | ("win32", "arm64") => some "win32-arm64"
  | _ => none

/-- `OSChecker.get_download_info`: `(platform_name, arch_name)`, both `none`
when the platform is unsupported.  `muslDetected` is the (linux-only) result
of `_is_musl_linux`. -/
def get_download_info (sysPlatform machineRaw : String) (muslDetected : Bool) :
    Option String × Option String :=
  let os_name := get_os_platform sysPlatform
  let arch := get_architecture machineRaw
  match os_arch_token (os_name, arch) with
  | some platform_name =>
      let p := if os_name = "linux" && muslDetected then platform_name ++ "-musl"
               else platform_name
      (some p, some arch)
  | none => (none, none)

/-! ### Download URL construction -/

def CLAUDE_DOWNLOAD_BASE : String :=
  "https://storage.googleapis.com/claude-code-dist-86c565f3-f756-42ad-8dfa-d59b1c096819/claude-code-releases"

/-- `get_binary_name_for_platform`. -/
def get_binary_name_for_platform (platform_name : String) : String :=
  if pyStartsWith platform_name "win32" then "claude.exe" else "claude"

/-- `ClaudeInstaller.get_download_url` (and the identical URL built in
`ClaudeInstaller.run`), for a resolved platform token and version. -/
def get_download_url (latest_version platform_name : String) : String :=
  CLAUDE_DOWNLOAD_BASE ++ "/" ++ latest_version ++ "/" ++ platform_name ++ "/" ++
    get_binary_name_for_platform platform_name

/-! ### Version management (`VersionManager`) -/

/-- Matcher for the regex `[0-9]+\.[0-9]+\.[0-9]+` anchored at the start of a
character list; returns the matched characters (the capture group of
`v?([0-9]+\.[0-9]+\.[0-9]+)`). -/
def matchTripleAt (cs : List Char) : Option (List Char) :=
  let d1 := cs.takeWhile Char.isDigit
  let r1 := cs.dropWhile Char.isDigit
  if d1.isEmpty then none else
    match r1 with
    | '.' :: r2 =>
      let d2 := r2.takeWhile Char.isDigit
      let r3 := r2.dropWhile Char.isDigit
      if d2.isEmpty then none else
        match r3 with
        | '.' :: r4 =>
          let d3 := r4.takeWhile Char.isDigit
          if d3.isEmpty then none else some (d1 ++ '.' :: d2 ++ '.' :: d3)
        | _ => none
    | _ => none

/-- `re.search` for the pattern `v?([0-9]+\.[0-9]+\.[0-9]+)`: the leftmost
`MAJOR.MINOR.PATCH` shaped substring (trying the digit triple at every
position also covers the optional `v`, which is outside the capture
group). -/
def searchTriple : List Char → Option (List Char)
  | [] => none
  | c :: rest =>
      match matchTripleAt (c :: rest) with
      | some m => some m
      | none => searchTriple rest

/-- How the binary was located by `get_installed_version`: found on the
search path by `shutil.which`, found as a literal file path, or absent. -/
inductive Locate where
  | onPath (binary_path : String)
  | asFile (binary_path : String)
  | absent
deriving Repr, DecidableEq

/-- Outcome of the `subprocess.run([binary_path, "--version"], timeout=10)`
invocation. -/
inductive VerProc where
  | completed (returncode : Int) (stdout : String) (stderr : String)
  | fileNotFound
  | timedOut
  | raised (msg : String)
deriving Repr, DecidableEq

/-- `VersionManager.get_installed_version`: `(version, status_message)`. -/
def get_installed_version (claude_path : String) (locate : Locate)
    (proc : VerProc) : Option String × String :=
  match locate with
  | .absent => (none, "Not found: " ++ claude_path)
  | .onPath binary_path | .asFile binary_path =>
    match proc with
    | .completed returncode out err =>
      if returncode = 0 then
        let version := pyStrip out
        match searchTriple version.data with
        | some m => (some (String.mk m), "OK")
        | none => (if version.isEmpty then none else some version, "Parsed OK")
      else
        (none, "Command failed with exit code " ++ toString returncode ++ ": " ++ err)
    | .fileNotFound => (none, "Binary not found at " ++ binary_path)
    | .timedOut => (none, "Command timed out")
    | .raised m => (none, "Error: " ++ m)

/-- The result dictionary built by `VersionManager.check_update_needed`. -/
structure CheckResult where
  needs_update : Bool
  installed : Option String
  latest : Option String
  can_check : Bool
  status : String
  status_message : String
deriving Repr, DecidableEq

/-- The decision part of `VersionManager.check_update_needed` (everything
after the `get_installed_version` call).  `binaryOnDisk` is the fact
`shutil.which(claude_path) or Path(claude_path).exists()`; `latest` is the
value returned by `get_latest_version`. -/
def update_decision (installed : Option String) (status_msg : String)
    (binaryOnDisk : Bool) (latest : Option String) : CheckResult :=
  let r1 : CheckResult :=
    { needs_update := false, installed := installed, latest := none,
      can_check := false, status := "checking", status_message := status_msg }
  if !pyTruthy installed then
    if binaryOnDisk then { r1 with status := "version_check_failed" }
    else { r1 with status := "not_installed" }
  else
    let r2 := { r1 with can_check := true, latest := latest }
    if pyTruthy latest then
      if installed ≠ latest then
        { r2 with needs_update := true, status := "update_available" }
      else { r2 with status := "up_to_date" }
    else { r2 with status := "latest_check_failed" }

/-- `VersionManager.check_update_needed`, composed from
`get_installed_version` and the decision logic. -/
def check_update_needed (claude_path : String) (locate : Locate)
    (proc : VerProc) (binaryOnDisk : Bool) (latest : Option String) : CheckResult :=
  let r := get_installed_version claude_path locate proc
  update_decision r.1 r.2 binaryOnDisk latest

/-! ### Uninstall (`ClaudeUninstaller`) -/

/-- Outcome of the `subprocess.run([binary, "uninstall"], timeout=120)`
invocation. -/
inductive UnProc where
  | completed (returncode : Int) (stderr : String)
  | timedOut
  | raised (msg : String)
deriving Repr, DecidableEq

/-- Result of `ClaudeUninstaller._run_claude_uninstall`: the returned
`(success, message)` pair plus whether `_cleanup_downloads` was invoked. -/
structure UninstallOutcome where
  success : Bool
  message : String
  cleaned : Bool
deriving Repr, DecidableEq

/-- `ClaudeUninstaller._run_claude_uninstall`.  `binaryFound` is whether
`_find_claude_binary` located a staged `claude`/`claude.exe` file. -/
def run_claude_uninstall (binaryFound : Bool) (proc : UnProc) : UninstallOutcome :=
  if !binaryFound then
    { success := true, message := "Uninstall complete", cleaned := true }
  else
    match proc with
    | .completed returncode err =>
      if returncode = 0 then
        { success := true, message := "Uninstall complete", cleaned := true }
      else
        { success := true,
          message := "Uninstall complete (with warnings): " ++ err, cleaned := true }
    | .timedOut =>
      { success := true, message := "Uninstall complete (with timeout)", cleaned := true }
    | .raised m =>
      { success := false, message := "Uninstall error: " ++ m, cleaned := true }

/-! ### SHA-256 (the `hashlib.sha256` streaming digest used by
`compute_sha256`), per FIPS 180-4, over byte lists -/

def M32 : Nat := 4294967296

def add32 (a b : Nat) : Nat := (a + b) % M32

def not32 (x : Nat) : Nat := x ^^^ (M32 - 1)

def rotr32 (n x : Nat) : Nat := (x >>> n) ||| ((x <<< (32 - n)) % M32)

def bsig0 (x : Nat) : Nat := (rotr32 2 x) ^^^ (rotr32 13 x) ^^^ (rotr32 22 x)

def bsig1 (x : Nat) : Nat := (rotr32 6 x) ^^^ (rotr32 11 x) ^^^ (rotr32 25 x)

def ssig0 (x : Nat) : Nat := (rotr32 7 x) ^^^ (rotr32 18 x) ^^^ (x >>> 3)

def ssig1 (x : Nat) : Nat := (rotr32 17 x) ^^^ (rotr32 19 x) ^^^ (x >>> 10)

def chFn (x y z : Nat) : Nat := (x &&& y) ^^^ ((not32 x) &&& z)

def majFn (x y z : Nat) : Nat := (x &&& y) ^^^ (x &&& z) ^^^ (y &&& z)

def K256 : List Nat :=
  [1116352408, 1899447441, 3049323471, 3921009573, 961987163,
   1508970993, 2453635748, 2870763221, 3624381080, 310598401,
   607225278, 1426881987, 1925078388, 2162078206, 2614888103,
   3248222580, 3835390401, 4022224774, 264347078, 604807628,
   770255983, 1249150122, 1555081692, 1996064986, 2554220882,
   2821834349, 2952996808, 3210313671, 3336571891, 3584528711,
   113926993, 338241895, 666307205, 773529912, 1294757372,
   1396182291, 1695183700, 1986661051, 2177026350, 2456956037,
   2730485921, 2820302411, 3259730800, 3345764771, 3516065817,
   3600352804, 4094571909, 275423344, 430227734, 506948616,
   659060556, 883997877, 958139571, 1322822218, 1537002063,
   1747873779, 1955562222, 2024104815, 2227730452, 2361852424,
   2428436474, 2756734187, 3204031479, 3329325298]

/-- Append the 0x80 marker, zero padding and the 64-bit big-endian bit
length. -/
def padMessage (msg : List Nat) : List Nat :=
  let L := msg.length
  let bitLen := L * 8
  let k := (64 - ((L + 9) % 64)) % 64
  msg ++ [0x80] ++ List.replicate k 0 ++
    [(bitLen >>> 56) % 256, (bitLen >>> 48) % 256, (bitLen >>> 40) % 256,
     (bitLen >>> 32) % 256, (bitLen >>> 24) % 256, (bitLen >>> 16) % 256,
     (bitLen >>> 8) % 256, bitLen % 256]

/-- Accumulate bytes into 64-byte blocks (`acc` holds the current block in
reverse, `n` its length). -/
def toBlocksAux : List Nat → List Nat → Nat → List (List Nat)
  | [], acc, _ => if acc.isEmpty then [] else [acc.reverse]
  | b :: rest, acc, n =>
    if n = 63 then (acc.reverse ++ [b]) :: toBlocksAux rest [] 0
    else toBlocksAux rest (b :: acc) (n + 1)

/-- Split a padded message into 64-byte blocks. -/
def toBlocks (l : List Nat) : List (List Nat) := toBlocksAux l [] 0

/-- Big-endian 32-bit word at index `i` of a block. -/
def word32At (block : List Nat) (i : Nat) : Nat :=
  (((block.getD (4 * i) 0) <<< 24) ||| ((block.getD (4 * i + 1) 0) <<< 16) |||
    ((block.getD (4 * i + 2) 0) <<< 8) ||| block.getD (4 * i + 3) 0) % M32

/-- Extend the 16 message words to the 64-entry message schedule. -/
def extendSchedule (w0 : Array Nat) : Array Nat :=
  (List.range 48).foldl
    (fun w j =>
      let t := j + 16
      w.push (add32 (add32 (ssig1 (w.getD (t - 2) 0)) (w.getD (t - 7) 0))
        (add32 (ssig0 (w.getD (t - 15) 0)) (w.getD (t - 16) 0))))
    w0

/-- The eight 32-bit words of the hash state. -/
structure Hash8 where
  h0 : Nat
  h1 : Nat
  h2 : Nat
  h3 : Nat
  h4 : Nat
  h5 : Nat
  h6 : Nat
  h7 : Nat
deriving Repr, DecidableEq

def initH : Hash8 :=
  ⟨1779033703, 3144134277, 1013904242, 2773480762,
   1359893119, 2600822924, 528734635, 1541459225⟩

/-- One SHA-256 compression round over a 64-byte block. -/
def compressBlock (h : Hash8) (block : List Nat) : Hash8 :=
  let w := extendSchedule (((List.range 16).map (word32At block)).toArray)
  let step := fun (st : Nat × Nat × Nat × Nat × Nat × Nat × Nat × Nat) (t : Nat) =>
    let (a, b, c, d, e, f, g, hh) := st
    let t1 := add32 (add32 (add32 hh (bsig1 e))
      (add32 (chFn e f g) (K256.getD t 0))) (w.getD t 0)
    let t2 := add32 (bsig0 a) (majFn a b c)
    (add32 t1 t2, a, b, c, add32 d t1, e, f, g)
  let fin := (List.range 64).foldl step (h.h0, h.h1, h.h2, h.h3, h.h4, h.h5, h.h6, h.h7)
  match fin with
  | (a, b, c, d, e, f, g, hh) =>
    ⟨add32 h.h0 a, add32 h.h1 b, add32 h.h2 c, add32 h.h3 d,
     add32 h.h4 e, add32 h.h5 f, add32 h.h6 g, add32 h.h7 hh⟩

def sha256Words (msg : List Nat) : Hash8 :=
  (toBlocks (padMessage msg)).foldl compressBlock initH

/-- Big-endian bytes of a 32-bit word. -/
def wordBytes (w : Nat) : List Nat :=
  [(w >>> 24) % 256, (w >>> 16) % 256, (w >>> 8) % 256, w % 256]

/-- The 32 digest bytes. -/
def sha256Digest (msg : List Nat) : List Nat :=
  let h := sha256Words msg
  wordBytes h.h0 ++ wordBytes h.h1 ++ wordBytes h.h2 ++ wordBytes h.h3 ++
    wordBytes h.h4 ++ wordBytes h.h5 ++ wordBytes h.h6 ++ wordBytes h.h7

def hexDigitChar : Nat → Char
  | 0 => '0' | 1 => '1' | 2 => '2' | 3 => '3' | 4 => '4'
  | 5 => '5' | 6 => '6' | 7 => '7' | 8 => '8' | 9 => '9'
  | 10 => 'a' | 11 => 'b' | 12 => 'c' | 13 => 'd' | 14 => 'e' | 15 => 'f'
  | _ => '0'

/-- Two lowercase hex characters of a byte (as in `hexdigest()`). -/
def byteHex (b : Nat) : List Char := [hexDigitChar (b / 16 % 16), hexDigitChar (b % 16)]

/-- `hashlib.sha256(data).hexdigest()`: lowercase hex digest string. -/
def sha256hex (msg : List Nat) : String :=
  String.mk ((sha256Digest msg).flatMap byteHex)

/-! ### Checksum computation and verification -/

/-- `compute_sha256`: `fileContents` is `some bytes` when the file could be
opened and read, `none` when opening or reading raised (missing file,
permission error, ...), in which case the `except` clause returns `None`. -/
def compute_sha256 (fileContents : Option (List Nat)) : Option String :=
  match fileContents with
  | some bytes => some (sha256hex bytes)
  | none => none

/-- `ClaudeInstaller._verify_checksum`: true only when a digest was computed,
is truthy (non-empty) and matches the expected checksum case-insensitively. -/
def verify_checksum (fileContents : Option (List Nat)) (expected_checksum : String) : Bool :=
  match compute_sha256 fileContents with
  | some actual => !actual.isEmpty && (pyLower actual == pyLower expected_checksum)
  | none => false

/-! ### Install workflow (`ClaudeInstaller.run`) -/

/-- `ClaudeInstaller._get_checksum`: look the platform token up in the
manifest platforms mapping and extract its `checksum` entry (an absent
platform entry, an empty platform entry and an absent checksum key all
yield `None`). -/
def get_checksum (platform_name : String)
    (platforms : List (String × Option String)) : Option String :=
  (platforms.lookup platform_name).join

/-- Outcome of `ClaudeInstaller._download_file`: completed; the cancellation
flag was observed between chunks after the destination file was opened;
an exception was raised mid-stream after the destination file was opened;
or an exception was raised before the destination file was created. -/
inductive DlOutcome where
  | completed
  | cancelledMidway
  | failedMidway
  | failedNoFile
deriving Repr, DecidableEq

/-- Outcome of the `subprocess.run([binary_path, "install"], timeout=120)`
native install hook. -/
inductive HookProc where
  | completed (returncode : Int) (stderr : String)
  | timedOut
  | raised (msg : String)
deriving Repr, DecidableEq

/-- The environment facts consumed by one `ClaudeInstaller.run` invocation. -/
structure InstallEnv where
  /-- `self._latest_version` -/
  latest_version : Option String
  /-- first component of `OSChecker.get_download_info()` -/
  platform_name : Option String
  /-- `some message` when `download_dir.mkdir` raised -/
  mkdirError : Option String
  /-- `some platforms` when `_fetch_manifest` succeeded -/
  manifest : Option (List (String × Option String))
  /-- outcome of `_download_file` -/
  dl : DlOutcome
  /-- bytes of the downloaded file when the download completed -/
  fileBytes : List Nat
  /-- `sys.platform == "win32"` (skips the chmod step) -/
  isWin32 : Bool
  /-- outcome of `_run_claude_install` -/
  installHook : HookProc

/-- Observable outcome of one `ClaudeInstaller.run` invocation.
`finishedSignal` is the `finished.emit` payload (`none` when the thread
returns without emitting, as on cancellation); `stagedFileRetained` is
whether the staged download file still exists in the staging directory when
`run` returns. -/
structure RunOutcome where
  finishedSignal : Option (Bool × String)
  verifyAttempted : Bool
  chmodAttempted : Bool
  installHookRan : Bool
  stagedFileRetained : Bool
deriving Repr, DecidableEq

/-- `ClaudeInstaller.run`, step by step: version and platform guards, mkdir,
manifest fetch, checksum lookup, download, checksum verification (with
`_cleanup` on mismatch), chmod on non-Windows, the native install hook, and
the final `_cleanup`. -/
def installerRun (env : InstallEnv) : RunOutcome :=
  match env.latest_version with
  | none => ⟨some (false, "No version specified"), false, false, false, false⟩
  | some _ =>
    match env.platform_name with
    | none => ⟨some (false, "Unsupported platform for automatic download"),
               false, false, false, false⟩
    | some platform_name =>
      match env.mkdirError with
      | some e => ⟨some (false, e), false, false, false, false⟩
      | none =>
        match env.manifest with
        | none => ⟨some (false, "Failed to fetch manifest"), false, false, false, false⟩
        | some manifest =>
          match get_checksum platform_name manifest with
          | none => ⟨some (false, "Platform " ++ platform_name ++ " not found in manifest"),
                     false, false, false, false⟩
          | some checksum =>
            if checksum.isEmpty then
              ⟨some (false, "Platform " ++ platform_name ++ " not found in manifest"),
               false, false, false, false⟩
            else
              match env.dl with
              | .cancelledMidway => ⟨none, false, false, false, true⟩
              | .failedMidway => ⟨some (false, "Download failed"), false, false, false, true⟩
              | .failedNoFile => ⟨some (false, "Download failed"), false, false, false, false⟩
              | .completed =>
                if !(verify_checksum (some env.fileBytes) checksum) then
                  ⟨some (false, "Checksum verification failed"), true, false, false, false⟩
                else
                  let chmodAttempted := !env.isWin32
                  match env.installHook with
                  | .completed returncode err =>
                    if returncode = 0 then
                      ⟨some (true, "Claude Code installed successfully"),
                       true, chmodAttempted, true, false⟩
                    else
                      ⟨some (false, "Install command failed: " ++ err),
                       true, chmodAttempted, true, false⟩
                  | .timedOut => ⟨some (false, "Install command timed out"),
                                  true, chmodAttempted, true, false⟩
                  | .raised m => ⟨some (false, "Install command error: " ++ m),
                                  true, chmodAttempted, true, false⟩

/-- The checksum that `installerRun` resolves from the manifest for the
current platform (`none` when any guard before the download fails on it). -/
def resolvedChecksum (env : InstallEnv) : Option String :=
  match env.platform_name, env.manifest with
  | some p, some m =>
    match get_checksum p m with
    | some c => if c.isEmpty then none else some c
    | none => none
  | _, _ => none

/-- Whether `installerRun` reaches the download step. -/
def downloadStageReached (env : InstallEnv) : Bool :=
  env.latest_version.isSome && env.platform_name.isSome &&
    env.mkdirError.isNone && (resolvedChecksum env).isSome

/-- A concrete install environment whose download is cancelled after the
destination file was opened (partial bytes written). -/
def c1CancelEnv : InstallEnv :=
  { latest_version := some "1.0.0", platform_name := some "linux-x64",
    mkdirError := none,
    manifest := some [("linux-x64", some "0123abcd")],
    dl := DlOutcome.cancelledMidway, fileBytes := [], isWin32 := false,
    installHook := HookProc.completed 0 "" }

/-- A concrete install environment whose download completes and whose
manifest checksum matches the downloaded bytes (the empty file). -/
def c2GoodEnv : InstallEnv :=
  { latest_version := some "1.0.0", platform_name := some "linux-x64",
    mkdirError := none,
    manifest := some [("linux-x64",
      some "e3b0c44298fc1c149afbf4c8996fb92427ae41e4649b934ca495991b7852b855")],
    dl := DlOutcome.completed, fileBytes := [], isWin32 := false,
    installHook := HookProc.completed 0 "" }

/-- A concrete install environment whose download completes but whose
manifest checksum does not match the downloaded bytes. -/
def c2BadEnv : InstallEnv :=
  { latest_version := some "1.0.0", platform_name := some "linux-x64",
    mkdirError := none,
    manifest := some [("linux-x64", some "ffff")],
    dl := DlOutcome.completed, fileBytes := [], isWin32 := false,
    installHook := HookProc.completed 0 "" }

/-! ## Helper lemmas -/

theorem listStarts_iff (n : List Char) : ∀ l, listStarts n l = true ↔ ∃ t, n ++ t = l := by
  induction n with
  | nil => intro l; simp [listStarts]
  | cons a as ih =>
    intro l
    cases l with
    | nil =>
      constructor
      · intro h
        simp [listStarts] at h
      · rintro ⟨t, h⟩
        simp at h
    | cons b bs =>
      simp only [listStarts, Bool.and_eq_true, beq_iff_eq, ih bs]
      constructor
      · rintro ⟨rfl, t, rfl⟩
        exact ⟨t, rfl⟩
      · rintro ⟨t, h⟩
        injection h with h1 h2
        exact ⟨h1, t, h2⟩

theorem containsSubList_iff (n : List Char) : ∀ l, containsSubList n l = true ↔ n <:+: l := by
  intro l
  induction l with
  | nil =>
    simp only [containsSubList, List.isEmpty_iff]
    constructor
    · rintro rfl
      exact ⟨[], [], rfl⟩
    · rintro ⟨s, t, h⟩
      rcases List.append_eq_nil.mp h with ⟨h1, h2⟩
      exact (List.append_eq_nil.mp h1).2
  | cons c rest ih =>
    simp only [containsSubList, Bool.or_eq_true, listStarts_iff, ih]
    constructor
    · rintro (⟨t, h⟩ | ⟨s, t, h⟩)
      · exact ⟨[], t, by simpa using h⟩
      · exact ⟨c :: s, t, by simp [h]⟩
    · rintro ⟨s, t, h⟩
      cases s with
      | nil => exact Or.inl ⟨t, by simpa using h⟩
      | cons c2 s2 =>
        injection h with h1 h2
        exact Or.inr ⟨s2, t, h2⟩

theorem pyContains_iff (needle hay : String) :
    pyContains needle hay = true ↔ needle.data <:+: hay.data :=
  containsSubList_iff needle.data hay.data

theorem suffix_of_suffix_of_length_le {α : Type} {l₁ l₂ l₃ : List α}
    (h1 : l₁ <:+ l₃) (h2 : l₂ <:+ l₃) (hlen : l₁.length ≤ l₂.length) : l₁ <:+ l₂ := by
  obtain ⟨s, rfl⟩ := h2
  have e1 := List.suffix_iff_eq_drop.mp h1
  have hl1 := h1.length_le
  rw [e1]
  have harith : (s ++ l₂).length - l₁.length = s.length + (l₂.length - l₁.length) := by
    simp only [List.length_append] at hl1 ⊢
    omega
  rw [harith, ← List.drop_drop, List.drop_left]
  exact List.drop_suffix _ _

theorem not_archive_suffix (pre bin : List Char)
    (hb : bin = "claude".data ∨ bin = "claude.exe".data) :
    ¬ (".tar.gz".data <:+ pre ++ bin) ∧ ¬ (".zip".data <:+ pre ++ bin) := by
  have hbin : bin <:+ pre ++ bin := List.suffix_append pre bin
  rcases hb with rfl | rfl
  · refine ⟨fun h => ?_, fun h => ?_⟩
    · have : "claude".data <:+ ".tar.gz".data :=
        suffix_of_suffix_of_length_le hbin h (by decide)
      exact absurd this (by decide)
    · have : ".zip".data <:+ "claude".data :=
        suffix_of_suffix_of_length_le h hbin (by decide)
      exact absurd this (by decide)
  · refine ⟨fun h => ?_, fun h => ?_⟩
    · have : ".tar.gz".data <:+ "claude.exe".data :=
        suffix_of_suffix_of_length_le h hbin (by decide)
      exact absurd this (by decide)
    · have : ".zip".data <:+ "claude.exe".data :=
        suffix_of_suffix_of_length_le h hbin (by decide)
      exact absurd this (by decide)

theorem os_arch_token_eq_none (os a : String)
    (h : (os ≠ "darwin" ∧ os ≠ "linux" ∧ os ≠ "win32") ∨ (a ≠ "x64" ∧ a ≠ "arm64")) :
    os_arch_token (os, a) = none := by
  unfold os_arch_token
  split <;> simp_all

theorem get_os_platform_unknown (sysPlatform : String)
    (h1 : sysPlatform ≠ "darwin") (h2 : sysPlatform ≠ "linux")
    (h3 : sysPlatform ≠ "win32") : get_os_platform sysPlatform = "unknown" := by
  unfold get_os_platform
  rw [if_neg h1, if_neg h2, if_neg h3]

theorem isEmpty_false_of_ne (s : String) (h : s ≠ "") : s.isEmpty = false := by
  rw [Bool.eq_false_iff]
  intro hcontra
  exact h ((String.isEmpty_iff s).mp hcontra)

/-! ## Claim theorems -/

/-- Claim C5: platform resolution returns exactly the literal token
`os-arch` for the six supported combinations (after normalizing `x86_64`
and `amd64` to `x64`, and `arm64` and `aarch64` to `arm64`), appends
`-musl` to Linux tokens exactly when musl is detected, and returns no token
for every other OS or unnormalized architecture. -/
theorem platform_resolution :
    (∀ musl : Bool,
      get_download_info "darwin" "x86_64" musl = (some "darwin-x64", some "x64") ∧
      get_download_info "darwin" "amd64" musl = (some "darwin-x64", some "x64") ∧
      get_download_info "darwin" "arm64" musl = (some "darwin-arm64", some "arm64") ∧
      get_download_info "darwin" "aarch64" musl = (some "darwin-arm64", some "arm64") ∧
      get_download_info "win32" "x86_64" musl = (some "win32-x64", some "x64") ∧
      get_download_info "win32" "amd64" musl = (some "win32-x64", some "x64") ∧
      get_download_info "win32" "arm64" musl = (some "win32-arm64", some "arm64") ∧
      get_download_info "win32" "aarch64" musl = (some "win32-arm64", some "arm64")) ∧
    (get_download_info "linux" "x86_64" false = (some "linux-x64", some "x64") ∧
     get_download_info "linux" "x86_64" true = (some "linux-x64-musl", some "x64") ∧
     get_download_info "linux" "amd64" false = (some "linux-x64", some "x64") ∧
     get_download_info "linux" "amd64" true = (some "linux-x64-musl", some "x64") ∧
     get_download_info "linux" "arm64" false = (some "linux-arm64", some "arm64") ∧
     get_download_info "linux" "arm64" true = (some "linux-arm64-musl", some "arm64") ∧
     get_download_info "linux" "aarch64" false = (some "linux-arm64", some "arm64") ∧
     get_download_info "linux" "aarch64" true = (some "linux-arm64-musl", some "arm64")) ∧
    (∀ (sysPlatform machineRaw : String) (musl : Bool),
      (sysPlatform ≠ "darwin" ∧ sysPlatform ≠ "linux" ∧ sysPlatform ≠ "win32") ∨
        (get_architecture machineRaw ≠ "x64" ∧ get_architecture machineRaw ≠ "arm64") →
      (get_download_info sysPlatform machineRaw musl).1 = none) := by
  refine ⟨fun musl => ?_, ?_, ?_⟩
  · cases musl <;> exact ⟨rfl, rfl, rfl, rfl, rfl, rfl, rfl, rfl⟩
  · exact ⟨rfl, rfl, rfl, rfl, rfl, rfl, rfl, rfl⟩
  · intro sysPlatform machineRaw musl h
    have hnone : os_arch_token (get_os_platform sysPlatform, get_architecture machineRaw) = none := by
      apply os_arch_token_eq_none
      rcases h with ⟨h1, h2, h3⟩ | hr
      · left
        rw [get_os_platform_unknown sysPlatform h1 h2 h3]
        refine ⟨by decide, by decide, by decide⟩
      · right
        exact hr
    simp only [get_download_info, hnone]

/-- Witness for the unsupported-platform part of `platform_resolution`
at the concrete host facts (freebsd, x86_64). -/
theorem platform_resolution_witness :
    ((("freebsd" : String) ≠ "darwin" ∧ ("freebsd" : String) ≠ "linux" ∧
        ("freebsd" : String) ≠ "win32") ∨
      (get_architecture "x86_64" ≠ "x64" ∧ get_architecture "x86_64" ≠ "arm64")) ∧
    (get_download_info "freebsd" "x86_64" false).1 = none :=
  ⟨Or.inl ⟨by decide, by decide, by decide⟩,
   platform_resolution.2.2 "freebsd" "x86_64" false
     (Or.inl ⟨by decide, by decide, by decide⟩)⟩

/-- Claim C4: the update decision maps installed-absent (binary not on
disk) to `not_installed`; installed known with latest unknown to
`latest_check_failed`; both known and string-equal to `up_to_date`; both
known and different in any way (including a downgrade) to
`update_available` — comparison is exact string equality. -/
theorem update_decision_table :
    (∀ (status_msg : String) (latest : Option String),
      (update_decision none status_msg false latest).status = "not_installed") ∧
    (∀ (i status_msg : String) (b : Bool), i ≠ "" →
      (update_decision (some i) status_msg b none).status = "latest_check_failed") ∧
    (∀ (i status_msg : String) (b : Bool), i ≠ "" →
      (update_decision (some i) status_msg b (some i)).status = "up_to_date" ∧
      (update_decision (some i) status_msg b (some i)).needs_update = false) ∧
    (∀ (i l status_msg : String) (b : Bool), i ≠ "" → l ≠ "" → i ≠ l →
      (update_decision (some i) status_msg b (some l)).status = "update_available" ∧
      (update_decision (some i) status_msg b (some l)).needs_update = true) ∧
    (∀ (status_msg : String) (b : Bool),
      (update_decision (some "1.0.1") status_msg b (some "1.0.0")).status
        = "update_available") := by
  refine ⟨fun status_msg latest => rfl, ?_, ?_, ?_, fun status_msg b => rfl⟩
  · intro i status_msg b hi
    have hie := isEmpty_false_of_ne i hi
    simp [update_decision, pyTruthy, hie]
  · intro i status_msg b hi
    have hie := isEmpty_false_of_ne i hi
    constructor <;> simp [update_decision, pyTruthy, hie]
  · intro i l status_msg b hi hl hne
    have hie := isEmpty_false_of_ne i hi
    have hle := isEmpty_false_of_ne l hl
    constructor <;> simp [update_decision, pyTruthy, hie, hle, hne]

/-- Witness for `update_decision_table` at concrete version pairs,
including the downgrade pair (installed 1.0.1, latest 1.0.0). -/
theorem update_decision_table_witness :
    (("1.0.0" : String) ≠ "" ∧
      (update_decision (some "1.0.0") "OK" true none).status = "latest_check_failed") ∧
    (("1.0.1" : String) ≠ "" ∧ ("1.0.0" : String) ≠ "" ∧
      ("1.0.1" : String) ≠ "1.0.0" ∧
      (update_decision (some "1.0.1") "OK" true (some "1.0.0")).status
        = "update_available") :=
  ⟨⟨by decide, update_decision_table.2.1 "1.0.0" "OK" true (by decide)⟩,
   ⟨by decide, by decide, by decide,
    (update_decision_table.2.2.2.1 "1.0.1" "1.0.0" "OK" true (by decide) (by decide)
      (by decide)).1⟩⟩

/-- Claim C3, counterexample: a locatable binary whose version query exits 0
with output containing no MAJOR.MINOR.PATCH substring is NOT reported as
`version_check_failed`; the raw output is used as the installed version and
compared against the latest version, yielding `update_available`. -/
theorem version_unparsable_counterexample :
    (check_update_needed "claude" (.onPath "/usr/local/bin/claude")
        (.completed 0 "development build" "") true (some "1.0.0")).status
      = "update_available" ∧
    (check_update_needed "claude" (.onPath "/usr/local/bin/claude")
        (.completed 0 "development build" "") true (some "1.0.0")).installed
      = some "development build" ∧
    (check_update_needed "claude" (.onPath "/usr/local/bin/claude")
        (.completed 0 "development build" "") true (some "1.0.0")).status
      ≠ "version_check_failed" := by
  refine ⟨by decide, by decide, by decide⟩

/-- Claim C3 (amended): for a locatable binary, a non-zero exit, a timeout,
or exit 0 with output that is empty after stripping yields
`version_check_failed`; but exit 0 with non-empty output containing no
MAJOR.MINOR.PATCH substring is taken verbatim (stripped) as the installed
version, and the check proceeds to the latest-version comparison instead of
reporting `version_check_failed`. -/
theorem version_check_failure_amended :
    ∀ (claude_path binary_path out err : String) (latest : Option String) (rc : Int),
      (rc ≠ 0 →
        (check_update_needed claude_path (.onPath binary_path)
            (.completed rc out err) true latest).status = "version_check_failed") ∧
      ((check_update_needed claude_path (.onPath binary_path)
          .timedOut true latest).status = "version_check_failed") ∧
      ((pyStrip out) = "" →
        (check_update_needed claude_path (.onPath binary_path)
            (.completed 0 out err) true latest).status = "version_check_failed") ∧
      (searchTriple (pyStrip out).data = none → (pyStrip out) ≠ "" →
        (check_update_needed claude_path (.onPath binary_path)
            (.completed 0 out err) true latest).installed = some (pyStrip out) ∧
        (check_update_needed claude_path (.onPath binary_path)
            (.completed 0 out err) true latest).can_check = true ∧
        (check_update_needed claude_path (.onPath binary_path)
            (.completed 0 out err) true latest).status ≠ "version_check_failed" ∧
        (check_update_needed claude_path (.onPath binary_path)
            (.completed 0 out err) true latest).status ≠ "not_installed") := by
  intro claude_path binary_path out err latest rc
  refine ⟨?_, ?_, ?_, ?_⟩
  · intro hrc
    simp [check_update_needed, get_installed_version, update_decision, pyTruthy, hrc]
  · rfl
  · intro h
    have h1 : searchTriple ([] : List Char) = none := rfl
    have h2 : ("" : String).isEmpty = true := rfl
    simp [check_update_needed, get_installed_version, update_decision, pyTruthy, h, h1, h2]
  · intro hsearch hne
    have hie := isEmpty_false_of_ne (pyStrip out) hne
    have key : check_update_needed claude_path (.onPath binary_path)
        (.completed 0 out err) true latest
        = update_decision (some (pyStrip out)) "Parsed OK" true latest := by
      simp [check_update_needed, get_installed_version, hsearch, hie]
    refine ⟨?_, ?_, ?_, ?_⟩ <;> rw [key] <;>
      rcases latest with _ | l <;>
      simp [update_decision, pyTruthy, hie] <;>
      split <;> (try split) <;> simp_all

/-- Witness for `version_check_failure_amended` at concrete inputs: a
non-zero exit, an empty output, and the unparsable output
"development build". -/
theorem version_check_failure_amended_witness :
    ((1 : Int) ≠ 0 ∧
      (check_update_needed "claude" (.onPath "/usr/bin/claude")
          (.completed 1 "" "boom") true (some "1.0.0")).status
        = "version_check_failed") ∧
    (pyStrip ("  " : String) = "" ∧
      (check_update_needed "claude" (.onPath "/usr/bin/claude")
          (.completed 0 "  " "") true (some "1.0.0")).status
        = "version_check_failed") ∧
    (searchTriple (pyStrip ("no version here" : String)).data = none ∧
      pyStrip ("no version here" : String) ≠ "" ∧
      (check_update_needed "claude" (.onPath "/usr/bin/claude")
          (.completed 0 "no version here" "") true (some "1.0.0")).installed
        = some "no version here") :=
  ⟨⟨by decide,
    (version_check_failure_amended "claude" "/usr/bin/claude" "" "boom"
      (some "1.0.0") 1).1 (by decide)⟩,
   ⟨by decide,
    (version_check_failure_amended "claude" "/usr/bin/claude" "  " ""
      (some "1.0.0") 0).2.2.1 (by decide)⟩,
   ⟨by decide, by decide,
    ((version_check_failure_amended "claude" "/usr/bin/claude" "no version here" ""
      (some "1.0.0") 0).2.2.2 (by decide) (by decide)).1⟩⟩

/-- Claim C8: musl detection is a total function of the probe facts (so it
never raises): linkage-tool output containing "musl" case-insensitively
yields true, output without it yields false, a raised probe falls back to
the two known musl runtime library files, and with neither signal the
result is false. -/
theorem musl_detection :
    ∀ (out : String) (muslX86Lib muslAarchLib : Bool),
      (("musl".data <:+: (pyLower out).data) →
        is_musl_linux (some out) muslX86Lib muslAarchLib = true) ∧
      (¬ ("musl".data <:+: (pyLower out).data) →
        is_musl_linux (some out) muslX86Lib muslAarchLib = false) ∧
      (is_musl_linux none muslX86Lib muslAarchLib = (muslX86Lib || muslAarchLib)) ∧
      (is_musl_linux none false false = false) := by
  intro out muslX86Lib muslAarchLib
  refine ⟨?_, ?_, rfl, rfl⟩
  · intro h
    simpa [is_musl_linux] using (pyContains_iff "musl" (pyLower out)).mpr h
  · intro h
    have : pyContains "musl" (pyLower out) ≠ true := fun hc =>
      h ((pyContains_iff "musl" (pyLower out)).mp hc)
    simpa [is_musl_linux] using Bool.eq_false_iff.mpr this

/-- Witness for `musl_detection` at a musl-containing probe output and at a
glibc probe output. -/
theorem musl_detection_witness :
    (("musl".data <:+: (pyLower "MUSL libc (x86_64)").data) ∧
      is_musl_linux (some "MUSL libc (x86_64)") false false = true) ∧
    (¬ ("musl".data <:+: (pyLower "glibc 2.31").data) ∧
      is_musl_linux (some "glibc 2.31") false false = false) :=
  ⟨⟨by decide,
    (musl_detection "MUSL libc (x86_64)" false false).1 (by decide)⟩,
   ⟨by decide,
    (musl_detection "glibc 2.31" false false).2.1 (by decide)⟩⟩

/-- Claim C9: uninstall always runs the staging-directory cleanup, reports
success when no staged binary is found, and reports success when the
uninstall subcommand exits non-zero or times out. -/
theorem uninstall_outcomes :
    ∀ (binaryFound : Bool) (proc : UnProc),
      (run_claude_uninstall binaryFound proc).cleaned = true ∧
      ((run_claude_uninstall false proc).success = true ∧
        (run_claude_uninstall false proc).message = "Uninstall complete") ∧
      (∀ (rc : Int) (err : String), rc ≠ 0 →
        (run_claude_uninstall binaryFound (.completed rc err)).success = true) ∧
      (run_claude_uninstall binaryFound .timedOut).success = true := by
  intro binaryFound proc
  refine ⟨?_, ⟨rfl, rfl⟩, ?_, ?_⟩
  · cases binaryFound <;> cases proc
    all_goals simp [run_claude_uninstall, apply_ite]
  · intro rc err hrc
    cases binaryFound <;> simp [run_claude_uninstall, hrc]
  · cases binaryFound <;> rfl

/-- Witness for `uninstall_outcomes` at a non-zero uninstall subcommand
exit code. -/
theorem uninstall_outcomes_witness :
    (1 : Int) ≠ 0 ∧
    (run_claude_uninstall true (.completed 1 "shell integration error")).success = true :=
  ⟨by decide,
   (uninstall_outcomes true (.completed 1 "shell integration error")).2.2.1 1
     "shell integration error" (by decide)⟩

theorem hexDigitChar_toLower (n : Nat) : (hexDigitChar n).toLower = hexDigitChar n := by
  unfold hexDigitChar
  split <;> decide

theorem pyLower_sha256hex (msg : List Nat) : pyLower (sha256hex msg) = sha256hex msg := by
  unfold pyLower sha256hex
  congr 1
  simp only [List.map_flatMap]
  congr 1
  funext b
  simp [byteHex, hexDigitChar_toLower]

theorem sha256hex_ne_empty (msg : List Nat) : sha256hex msg ≠ "" := by
  intro h
  have hd := congrArg String.data h
  simp [sha256hex, sha256Digest, wordBytes, byteHex] at hd

/-- Claim C6: the download URL is exactly
`{base}/{version}/{platformToken}/{binaryName}` with `binaryName` equal to
`claude.exe` precisely when the platform token begins with `win32` and
`claude` otherwise, and no constructed URL ends in `.tar.gz` or `.zip`. -/
theorem download_url_shape :
    ∀ (version platform_name : String),
      (get_binary_name_for_platform platform_name = "claude.exe" ↔
        pyStartsWith platform_name "win32" = true) ∧
      get_download_url version platform_name =
        CLAUDE_DOWNLOAD_BASE ++ "/" ++ version ++ "/" ++ platform_name ++ "/" ++
          get_binary_name_for_platform platform_name ∧
      ¬ (".tar.gz".data <:+ (get_download_url version platform_name).data) ∧
      ¬ (".zip".data <:+ (get_download_url version platform_name).data) ∧
      get_download_url "2.1.42" "darwin-x64" =
        CLAUDE_DOWNLOAD_BASE ++ "/2.1.42/darwin-x64/claude" ∧
      get_download_url "2.1.42" "win32-x64" =
        CLAUDE_DOWNLOAD_BASE ++ "/2.1.42/win32-x64/claude.exe" := by
  intro version platform_name
  have hb : (get_binary_name_for_platform platform_name).data = "claude".data ∨
      (get_binary_name_for_platform platform_name).data = "claude.exe".data := by
    unfold get_binary_name_for_platform
    split
    · right; rfl
    · left; rfl
  have hdata : (get_download_url version platform_name).data =
      (CLAUDE_DOWNLOAD_BASE ++ "/" ++ version ++ "/" ++ platform_name ++ "/").data ++
        (get_binary_name_for_platform platform_name).data :=
    String.data_append _ _
  refine ⟨?_, rfl, ?_, ?_, rfl, rfl⟩
  · cases hsw : pyStartsWith platform_name "win32" <;>
      simp [get_binary_name_for_platform, hsw]
  · rw [hdata]
    exact (not_archive_suffix _ _ hb).1
  · rw [hdata]
    exact (not_archive_suffix _ _ hb).2

/-- Witness for `download_url_shape` at the concrete version and platform
from the specification examples. -/
theorem download_url_shape_witness :
    get_download_url "2.1.42" "darwin-x64" =
      CLAUDE_DOWNLOAD_BASE ++ "/2.1.42/darwin-x64/claude" ∧
    ¬ (".zip".data <:+ (get_download_url "2.1.42" "win32-x64").data) :=
  ⟨(download_url_shape "2.1.42" "darwin-x64").2.2.2.2.1,
   (download_url_shape "2.1.42" "win32-x64").2.2.2.1⟩

/-- Claim C7: checksum verification of a readable file succeeds exactly when
the lowercase hex SHA-256 digest of its bytes equals the expected checksum
case-insensitively, and any change of the bytes that changes the digest
flips a succeeding verification to false. -/
theorem checksum_verification_iff :
    ∀ (bytes : List Nat) (expected : String),
      (verify_checksum (some bytes) expected = true ↔
        pyLower (sha256hex bytes) = pyLower expected) ∧
      (∀ bytes2 : List Nat, sha256hex bytes2 ≠ sha256hex bytes →
        verify_checksum (some bytes) expected = true →
        verify_checksum (some bytes2) expected = false) := by
  intro bytes expected
  have hiff : ∀ b : List Nat, verify_checksum (some b) expected = true ↔
      pyLower (sha256hex b) = pyLower expected := by
    intro b
    have hie := isEmpty_false_of_ne (sha256hex b) (sha256hex_ne_empty b)
    simp [verify_checksum, compute_sha256, hie]
  refine ⟨hiff bytes, ?_⟩
  intro bytes2 hdiff hv
  have h1 : pyLower (sha256hex bytes) = pyLower expected := (hiff bytes).mp hv
  rw [pyLower_sha256hex] at h1
  have h2 : pyLower (sha256hex bytes2) ≠ pyLower expected := by
    rw [pyLower_sha256hex]
    rw [← h1]
    exact hdiff
  rw [Bool.eq_false_iff]
  intro hc
  exact h2 ((hiff bytes2).mp hc)

set_option maxRecDepth 20000 in
/-- Witness for `checksum_verification_iff`: the empty file verifies against
the uppercase hex SHA-256 digest of the empty byte string, and the one-byte
file (whose digest differs) fails against the same checksum. -/
theorem checksum_verification_iff_witness :
    sha256hex [0] ≠ sha256hex [] ∧
    verify_checksum (some [])
      "E3B0C44298FC1C149AFBF4C8996FB92427AE41E4649B934CA495991B7852B855" = true ∧
    verify_checksum (some [0])
      "E3B0C44298FC1C149AFBF4C8996FB92427AE41E4649B934CA495991B7852B855" = false :=
  ⟨by decide,
   (checksum_verification_iff []
     "E3B0C44298FC1C149AFBF4C8996FB92427AE41E4649B934CA495991B7852B855").1.mpr
     (by decide),
   (checksum_verification_iff []
     "E3B0C44298FC1C149AFBF4C8996FB92427AE41E4649B934CA495991B7852B855").2 [0]
     (by decide)
     ((checksum_verification_iff []
       "E3B0C44298FC1C149AFBF4C8996FB92427AE41E4649B934CA495991B7852B855").1.mpr
       (by decide))⟩

/-- Claim C10: checksum computation of an unreadable or missing file returns
the absent value instead of raising, and verification of such a file is
false for every expected checksum. -/
theorem checksum_totality :
    compute_sha256 none = none ∧
    ∀ expected : String, verify_checksum none expected = false :=
  ⟨rfl, fun _ => rfl⟩

/-- Witness for `checksum_totality` at a concrete expected checksum. -/
theorem checksum_totality_witness :
    verify_checksum none
      "e3b0c44298fc1c149afbf4c8996fb92427ae41e4649b934ca495991b7852b855" = false :=
  checksum_totality.2
    "e3b0c44298fc1c149afbf4c8996fb92427ae41e4649b934ca495991b7852b855"

/-- Claim C1, counterexample: when the download is cancelled after partial
bytes were written (environment `c1CancelEnv`), `ClaudeInstaller.run`
returns without deleting the partial file — the staged artifact IS retained
in the staging directory, contradicting the claim that it is deleted on
every failure path.  (No checksum verification is attempted and nothing is
promoted, as the claim also states.) -/
theorem staged_cleanup_counterexample :
    (installerRun c1CancelEnv).stagedFileRetained = true ∧
    (installerRun c1CancelEnv).verifyAttempted = false ∧
    (installerRun c1CancelEnv).installHookRan = false := by
  refine ⟨by decide, by decide, by decide⟩

/-- Claim C1 (amended): the staged artifact is retained at the end of
`ClaudeInstaller.run` exactly when the download stage was reached and the
download was cancelled or failed after the destination file was opened; in
that case no checksum verification is attempted and no promotion step
(chmod or native install hook) runs, but the partial file stays in the
staging directory.  On every other path — including checksum failure and
the install-hook steps — the staged artifact is deleted by the end of the
workflow. -/
theorem staged_cleanup_amended :
    ∀ env : InstallEnv,
      ((installerRun env).stagedFileRetained = true ↔
        (downloadStageReached env = true ∧
          (env.dl = DlOutcome.cancelledMidway ∨ env.dl = DlOutcome.failedMidway))) ∧
      ((installerRun env).stagedFileRetained = true →
        (installerRun env).verifyAttempted = false ∧
        (installerRun env).chmodAttempted = false ∧
        (installerRun env).installHookRan = false) := by
  intro env
  obtain ⟨v, p, mk, man, dl, bytes, w32, hook⟩ := env
  cases v with
  | none => simp [installerRun, downloadStageReached]
  | some ver =>
  cases p with
  | none => simp [installerRun, downloadStageReached]
  | some platform =>
  cases mk with
  | some e => simp [installerRun, downloadStageReached]
  | none =>
  cases man with
  | none => simp [installerRun, downloadStageReached, resolvedChecksum]
  | some manifest =>
  cases hc : get_checksum platform manifest with
  | none => simp [installerRun, downloadStageReached, resolvedChecksum, hc]
  | some checksum =>
  cases he : checksum.isEmpty with
  | true => simp [installerRun, downloadStageReached, resolvedChecksum, hc, he]
  | false =>
  cases dl with
  | cancelledMidway =>
    simp [installerRun, downloadStageReached, resolvedChecksum, hc, he]
  | failedMidway =>
    simp [installerRun, downloadStageReached, resolvedChecksum, hc, he]
  | failedNoFile =>
    simp [installerRun, downloadStageReached, resolvedChecksum, hc, he]
  | completed =>
  cases hv : verify_checksum (some bytes) checksum with
  | false => simp [installerRun, downloadStageReached, resolvedChecksum, hc, he, hv]
  | true =>
  cases hook with
  | completed rc err =>
    rcases eq_or_ne rc 0 with hrc | hrc <;>
      simp [installerRun, downloadStageReached, resolvedChecksum, hc, he, hv, hrc]
  | timedOut =>
    simp [installerRun, downloadStageReached, resolvedChecksum, hc, he, hv]
  | raised m =>
    simp [installerRun, downloadStageReached, resolvedChecksum, hc, he, hv]

/-- Witness for `staged_cleanup_amended` at the cancelled-download
environment. -/
theorem staged_cleanup_amended_witness :
    (installerRun c1CancelEnv).stagedFileRetained = true ∧
    (installerRun c1CancelEnv).verifyAttempted = false ∧
    (installerRun c1CancelEnv).chmodAttempted = false ∧
    (installerRun c1CancelEnv).installHookRan = false :=
  ⟨by decide,
   ((staged_cleanup_amended c1CancelEnv).2 (by decide)).1,
   ((staged_cleanup_amended c1CancelEnv).2 (by decide)).2.1,
   ((staged_cleanup_amended c1CancelEnv).2 (by decide)).2.2⟩

/-- Claim C2: the promotion steps (chmod and the native install hook) run
only when checksum verification of the downloaded bytes against the
manifest checksum succeeded, and whenever verification is attempted and
fails the workflow deletes the staged artifact, reports failure, and
performs no promotion step. -/
theorem checksum_gate :
    ∀ env : InstallEnv,
      (((installerRun env).chmodAttempted = true ∨
          (installerRun env).installHookRan = true) →
        ∃ c, resolvedChecksum env = some c ∧
          verify_checksum (some env.fileBytes) c = true) ∧
      (∀ c, resolvedChecksum env = some c →
        (installerRun env).verifyAttempted = true →
        verify_checksum (some env.fileBytes) c = false →
        (installerRun env).stagedFileRetained = false ∧
        (installerRun env).finishedSignal
          = some (false, "Checksum verification failed") ∧
        (installerRun env).chmodAttempted = false ∧
        (installerRun env).installHookRan = false) := by
  intro env
  obtain ⟨v, p, mk, man, dl, bytes, w32, hook⟩ := env
  cases v with
  | none => simp [installerRun]
  | some ver =>
  cases p with
  | none => simp [installerRun]
  | some platform =>
  cases mk with
  | some e => simp [installerRun]
  | none =>
  cases man with
  | none => simp [installerRun]
  | some manifest =>
  cases hc : get_checksum platform manifest with
  | none => simp [installerRun, resolvedChecksum, hc]
  | some checksum =>
  cases he : checksum.isEmpty with
  | true => simp [installerRun, resolvedChecksum, hc, he]
  | false =>
  cases dl with
  | cancelledMidway => simp [installerRun, resolvedChecksum, hc, he]
  | failedMidway => simp [installerRun, resolvedChecksum, hc, he]
  | failedNoFile => simp [installerRun, resolvedChecksum, hc, he]
  | completed =>
  cases hv : verify_checksum (some bytes) checksum with
  | false => simp [installerRun, resolvedChecksum, hc, he, hv]
  | true =>
  cases hook with
  | completed rc err =>
    rcases eq_or_ne rc 0 with hrc | hrc <;>
      simp [installerRun, resolvedChecksum, hc, he, hv, hrc]
  | timedOut => simp [installerRun, resolvedChecksum, hc, he, hv]
  | raised m => simp [installerRun, resolvedChecksum, hc, he, hv]

set_option maxRecDepth 20000 in
/-- Witness for `checksum_gate`: in `c2GoodEnv` the install hook runs and
the resolved checksum verifies the downloaded bytes; in `c2BadEnv`
verification is attempted, fails, and the staged artifact is deleted. -/
theorem checksum_gate_witness :
    ((installerRun c2GoodEnv).installHookRan = true ∧
      (∃ c, resolvedChecksum c2GoodEnv = some c ∧
        verify_checksum (some c2GoodEnv.fileBytes) c = true)) ∧
    (resolvedChecksum c2BadEnv = some "ffff" ∧
      (installerRun c2BadEnv).verifyAttempted = true ∧
      verify_checksum (some c2BadEnv.fileBytes) "ffff" = false ∧
      (installerRun c2BadEnv).stagedFileRetained = false) :=
  ⟨⟨by decide, (checksum_gate c2GoodEnv).1 (Or.inr (by decide))⟩,
   ⟨by decide, by decide, by decide,
    ((checksum_gate c2BadEnv).2 "ffff" (by decide) (by decide) (by decide)).1⟩⟩

end ClaudeLauncher
